import Mathlib

/-!
Shallow embedding of `src/main.py` of polar-connect-backend: the in-memory
token store, the token validity / refresh / registration helpers, and the
`/polar/workouts` handler (listing, per-item detail fetch, date filtering,
limit cut-off).  Python dynamic values that flow through `dict.get` and
`or`-chains are modelled by the small `PyVal` type with Python truthiness;
machine time is modelled as `Int` seconds.  Handlers are pure functions of
the request parameters, the store, and the upstream responses, returning
the HTTP outcome, the new store, and the trace of upstream calls performed.
-/

/-- A Python/JSON value as it appears in the upstream response dictionaries:
absent/`None`, a string, an integer, or the `heart-rate` sub-dictionary
(with its `average` and `maximum` entries, each possibly `None`). -/
inductive PyVal where
  | pnone : PyVal
  | pstr (s : String) : PyVal
  | pint (n : Int) : PyVal
  | pdict (average maximum : PyVal) : PyVal
deriving DecidableEq, Repr

/-- Python truthiness of a `PyVal`: `None` is falsy, `""` is falsy, `0` is
falsy; a (non-empty, as modelled) dict is truthy. -/
def PyVal.truthy : PyVal → Bool
  | .pnone => false
  | .pstr s => s ≠ ""
  | .pint n => n ≠ 0
  | .pdict _ _ => true

/-- Python `a or b`: `a` if truthy, else `b` (the last operand is returned
even when falsy). -/
def pyOr (a b : PyVal) : PyVal :=
  if a.truthy then a else b

/-- Python `str()` of a modelled value (only applied to truthy scalars in
the code: exercise ids and start times). -/
def pyStr : PyVal → String
  | .pnone => "None"
  | .pstr s => s
  | .pint n => toString n
  | .pdict _ _ => "dict"

/-- Python truthiness of an `Optional[str]`: `None` and `""` are falsy. -/
def optTruthy : Option String → Bool
  | none => false
  | some s => s ≠ ""

/-- Python `a or b` on `Optional[str]` values. -/
def optOr (a b : Option String) : Option String :=
  if optTruthy a then a else b

/-- The module-level `TOKEN_STORE` dictionary of `src/main.py`. -/
structure TokenStore where
  access_token : Option String
  refresh_token : Option String
  expires_at : Int
  connected : Bool
  polar_user_id : Option String
deriving DecidableEq, Repr

/-- `_is_token_valid` (main.py line 59): the access token is present
(`is not None`, so even `""` counts as present) and the current time is
strictly below `expires_at - 60` (60 s safety buffer). -/
def _is_token_valid (now : Int) (st : TokenStore) : Bool :=
  st.access_token.isSome && now < st.expires_at - 60

/-- An upstream call performed by the service, for tracing which outbound
HTTP requests a handler run issues. -/
inductive UpstreamCall where
  | refreshToken : UpstreamCall
  | registerUser : UpstreamCall
  | listExercises : UpstreamCall
  | getExercise (id : String) : UpstreamCall
deriving DecidableEq, Repr

/-- Outcome of running a handler: a JSON success payload, an
`HTTPException` with its status code and a tag naming the detail, or an
uncaught Python exception (which the framework turns into a 500). -/
inductive HandlerResult (α : Type) where
  | ok (a : α) : HandlerResult α
  | httpError (status : Nat) (tag : String) : HandlerResult α
  | crash (exc : String) : HandlerResult α
deriving DecidableEq, Repr

/-- The body of the upstream token-refresh response, as read by
`_refresh_token_if_needed`: `data.get("access_token")`,
`data.get("refresh_token")`, `int(data.get("expires_in", 0))`. -/
structure RefreshResp where
  status : Nat
  access_token : Option String
  refresh_token : Option String
  expires_in : Int
deriving DecidableEq, Repr

/-- `_refresh_token_if_needed` (main.py lines 64-93).  `configOk` models
`_require_config()` (the three env vars being set).  Returns the updated
store or the raised `HTTPException`, plus the trace of upstream calls. -/
def _refresh_token_if_needed (now : Int) (configOk : Bool) (st : TokenStore)
    (resp : RefreshResp) : HandlerResult TokenStore × List UpstreamCall :=
  if _is_token_valid now st then (.ok st, [])
  else if ¬ optTruthy st.refresh_token then
    (.httpError 401 "Polar not connected", [])
  else if ¬ configOk then (.httpError 500 "Missing env vars", [])
  else if resp.status ≥ 400 then
    (.httpError 400 "refresh_failed", [.refreshToken])
  else
    (.ok { access_token := resp.access_token
           refresh_token := optOr resp.refresh_token st.refresh_token
           expires_at := now + resp.expires_in
           connected := true
           polar_user_id := st.polar_user_id },
     [.refreshToken])

/-- The body of the upstream user-registration response, as read by
`_register_user_if_needed`: the id under any of the spellings `user-id`,
`user_id`, `id`. -/
structure RegisterResp where
  status : Nat
  user_id_dash : Option String
  user_id_us : Option String
  id : Option String
deriving DecidableEq, Repr

/-- `_register_user_if_needed` (main.py lines 96-131).  Returns the
(possibly absent) upstream user id and the updated store, or the raised
`HTTPException`, plus the trace of upstream calls. -/
def _register_user_if_needed (st : TokenStore) (resp : RegisterResp) :
    HandlerResult (Option String × TokenStore) × List UpstreamCall :=
  if optTruthy st.polar_user_id then (.ok (st.polar_user_id, st), [])
  else if resp.status = 409 then
    (.ok (st.polar_user_id, st), [.registerUser])
  else if resp.status ≥ 400 then
    (.httpError 400 "register_user_failed", [.registerUser])
  else
    let user_id := optOr resp.user_id_dash (optOr resp.user_id_us resp.id)
    (.ok (user_id, { st with polar_user_id := user_id }), [.registerUser])

/-- `_date_in_range` (main.py lines 134-136): lexicographic, inclusive at
both ends.  Python compares strings lexicographically by code point, which
is the lexicographic order on the character lists; this coincides with
Lean's `String` order (`String.le_iff_toList_le`) and keeps the definition
kernel-computable. -/
def _date_in_range (date_yyyy_mm_dd start e : String) : Bool :=
  start.data ≤ date_yyyy_mm_dd.data && date_yyyy_mm_dd.data ≤ e.data

/-- An entry of the upstream exercise listing, as read in the loop of
`polar_workouts`: the id under any of the spellings `id`, `exerciseId`,
`exercise_id`. -/
structure ExerciseRef where
  id : PyVal := .pnone
  exerciseId : PyVal := .pnone
  exercise_id : PyVal := .pnone
deriving DecidableEq, Repr

/-- `ex.get("id") or ex.get("exerciseId") or ex.get("exercise_id")`
(main.py line 265). -/
def exIdOf (ex : ExerciseRef) : PyVal :=
  pyOr (pyOr ex.id ex.exerciseId) ex.exercise_id

/-- The JSON body of an exercise-detail response, with every key the
handler reads (main.py lines 281-297); absent keys are `pnone`. -/
structure DetailBody where
  start_time_dash : PyVal := .pnone
  start_time_us : PyVal := .pnone
  startTime : PyVal := .pnone
  sport : PyVal := .pnone
  sport_id_dash : PyVal := .pnone
  sportId : PyVal := .pnone
  duration : PyVal := .pnone
  durationSeconds : PyVal := .pnone
  duration_seconds : PyVal := .pnone
  calories : PyVal := .pnone
  distance : PyVal := .pnone
  distanceMeters : PyVal := .pnone
  heart_rate : PyVal := .pnone
  avgHr : PyVal := .pnone
  maxHr : PyVal := .pnone
deriving DecidableEq, Repr

/-- An exercise-detail response: HTTP status plus JSON body. -/
structure DetailResp where
  status : Nat
  body : DetailBody := {}
deriving DecidableEq, Repr

/-- `d.get("start-time") or d.get("start_time") or d.get("startTime")`
(main.py line 281). -/
def startTimeOf (d : DetailBody) : PyVal :=
  pyOr (pyOr d.start_time_dash d.start_time_us) d.startTime

/-- One normalized workout summary as appended to `workouts`
(main.py lines 287-301). -/
structure Workout where
  id : String
  startTime : PyVal
  type : PyVal
  durationSeconds : PyVal
  calories : PyVal
  distanceMeters : PyVal
  avgHr : PyVal
  maxHr : PyVal
deriving DecidableEq, Repr

/-- Build the summary dict appended for one exercise (main.py lines
287-301): `str(ex_id)`, the computed start time, and the defensive
`or`-chains / `heart-rate` dict extraction for the remaining fields. -/
def mkWorkout (idStr : String) (d : DetailBody) (start_time : PyVal) : Workout :=
  { id := idStr
    startTime := start_time
    type := pyOr (pyOr d.sport d.sport_id_dash) d.sportId
    durationSeconds := pyOr (pyOr d.duration d.durationSeconds) d.duration_seconds
    calories := d.calories
    distanceMeters := pyOr d.distance d.distanceMeters
    avgHr := match d.heart_rate with
             | .pdict a _ => a
             | _ => d.avgHr
    maxHr := match d.heart_rate with
             | .pdict _ m => m
             | _ => d.maxHr }

/-- The detail-fetch loop of `polar_workouts` (main.py lines 264-304):
for each listing entry, extract the id (skip falsy ids), fetch the detail
(skip statuses ≥ 400), filter by the date window when a start time is
present, append the summary, and break once `limit` items are collected.
Returns the accumulated `workouts` and the trace of detail fetches. -/
def fetchLoop (details : String → DetailResp) (start to_ : String)
    (limit : Nat) : List ExerciseRef → List Workout →
    List Workout × List UpstreamCall
  | [], acc => (acc, [])
  | ex :: rest, acc =>
    let ex_id := exIdOf ex
    if ex_id.truthy then
      let idStr := pyStr ex_id
      let d := details idStr
      let tail :=
        if d.status ≥ 400 then fetchLoop details start to_ limit rest acc
        else
          let start_time := startTimeOf d.body
          if start_time.truthy &&
              ! _date_in_range ((pyStr start_time).take 10) start to_ then
            fetchLoop details start to_ limit rest acc
          else
            let acc2 := acc ++ [mkWorkout idStr d.body start_time]
            if acc2.length ≥ limit then (acc2, [])
            else fetchLoop details start to_ limit rest acc2
      (tail.1, .getExercise idStr :: tail.2)
    else fetchLoop details start to_ limit rest acc

/-- The JSON body of the exercise-listing response.  `polar_workouts` runs
`listing.get("exercises", [])` on it: on a JSON object this yields the
value under `exercises` (default `[]`); on a bare JSON list, Python lists
have no `.get`, so an `AttributeError` is raised. -/
inductive ListingBody where
  | jlist (items : List ExerciseRef) : ListingBody
  | jobj (exercises : Option (List ExerciseRef)) : ListingBody
deriving DecidableEq, Repr

/-- `listing.get("exercises", [])` (main.py line 258), with the
`AttributeError` on a bare list surfaced as a crash. -/
def getExercisesField : ListingBody → HandlerResult (List ExerciseRef)
  | .jlist _ => .crash "AttributeError: list object has no attribute get"
  | .jobj exercises => .ok (exercises.getD [])

/-- The success payload of `polar_workouts` (main.py line 306):
`{"workouts": ..., "from": start, "to": to, "count": len(workouts)}`. -/
structure WorkoutsPayload where
  workouts : List Workout
  fromDate : String
  toDate : String
  count : Nat
deriving DecidableEq, Repr

/-- FastAPI parsing/validation of `limit: int = Query(50, ge=1, le=200)`
(main.py line 237): absent means the default 50; a supplied value outside
`[1, 200]` fails request validation with a 422 before the handler body
runs; an in-range value is passed through. -/
def parseLimitParam (raw : Option Int) : HandlerResult Int :=
  match raw with
  | none => .ok 50
  | some v => if 1 ≤ v ∧ v ≤ 200 then .ok v
              else .httpError 422 "limit validation failed"

/-- The body of the `polar_workouts` handler (main.py lines 231-306),
run after FastAPI has bound `from_date`, `from` (both optional) and the
validated `to` and `limit`.  Inputs beyond the query parameters: the
current time, whether the env config is present, the token store, and the
upstream responses (refresh, registration, listing, and details keyed by
exercise id).  Returns the HTTP outcome, the final store, and the ordered
trace of upstream calls performed. -/
def polar_workouts (now : Int) (configOk : Bool) (st : TokenStore)
    (refreshResp : RefreshResp) (registerResp : RegisterResp)
    (listStatus : Nat) (listBody : ListingBody)
    (details : String → DetailResp)
    (from_date from_alias : Option String) (to_ : String) (limit : Nat) :
    HandlerResult WorkoutsPayload × TokenStore × List UpstreamCall :=
  match _refresh_token_if_needed now configOk st refreshResp with
  | (.httpError s t, calls) => (.httpError s t, st, calls)
  | (.crash e, calls) => (.crash e, st, calls)
  | (.ok st1, calls1) =>
    let start? := optOr from_alias from_date
    match start? with
    | none =>
      (.httpError 422 "Missing required query parameter", st1, calls1)
    | some start =>
      if start = "" then
        (.httpError 422 "Missing required query parameter", st1, calls1)
      else
        match _register_user_if_needed st1 registerResp with
        | (.httpError s t, calls2) => (.httpError s t, st1, calls1 ++ calls2)
        | (.crash e, calls2) => (.crash e, st1, calls1 ++ calls2)
        | (.ok (_, st2), calls2) =>
          -- `_polar_headers_json` raises 401 on a falsy access token
          if ¬ optTruthy st2.access_token then
            (.httpError 401 "No access token", st2, calls1 ++ calls2)
          else
            let calls3 := calls1 ++ calls2 ++ [UpstreamCall.listExercises]
            if listStatus ≥ 400 then
              (.httpError listStatus "list_exercises_failed", st2, calls3)
            else
              match getExercisesField listBody with
              | .crash e => (.crash e, st2, calls3)
              | .httpError s t => (.httpError s t, st2, calls3)
              | .ok exercises =>
                let r := fetchLoop details start to_ limit exercises []
                (.ok { workouts := r.1
                       fromDate := start
                       toDate := to_
                       count := r.1.length },
                 st2, calls3 ++ r.2)

/-- Refinement-spec definition, following the spec's words for the listing
semantics: the normalized summaries of ALL listing entries, in upstream
listing order, restricted to entries whose id is present, whose detail
fetch succeeds, and which pass the date filter.  The claim is that the
handler returns the first `limit` of these. -/
def specMatchedWorkouts (details : String → DetailResp) (start to_ : String) :
    List ExerciseRef → List Workout
  | [] => []
  | ex :: rest =>
    let ex_id := exIdOf ex
    if ex_id.truthy then
      let d := details (pyStr ex_id)
      if d.status ≥ 400 then specMatchedWorkouts details start to_ rest
      else
        let start_time := startTimeOf d.body
        if start_time.truthy &&
            ! _date_in_range ((pyStr start_time).take 10) start to_ then
          specMatchedWorkouts details start to_ rest
        else
          mkWorkout (pyStr ex_id) d.body start_time ::
            specMatchedWorkouts details start to_ rest
    else specMatchedWorkouts details start to_ rest

/-- Fixture: a store holding a currently valid token (at `now = 0`) and a
registered user id, so the workouts handler reaches the listing step
without refresh or registration calls. -/
def validStore : TokenStore :=
  { access_token := some "tok", refresh_token := some "rtok",
    expires_at := 1000, connected := true, polar_user_id := some "uid1" }

/-- Fixture: a store whose access token is absent and long expired, but
which still holds a refresh token. -/
def expiredStore : TokenStore :=
  { access_token := none, refresh_token := some "rtok",
    expires_at := 0, connected := false, polar_user_id := none }

/-- Fixture: a successful refresh response. -/
def okRefresh : RefreshResp :=
  { status := 200, access_token := some "newtok",
    refresh_token := some "newrtok", expires_in := 3600 }

/-- Fixture: a refresh response for runs that never reach the refresh
call. -/
def idleRefresh : RefreshResp :=
  { status := 200, access_token := none, refresh_token := none,
    expires_in := 0 }

/-- Fixture: a registration response for runs that never reach the
registration call. -/
def idleRegister : RegisterResp :=
  { status := 409, user_id_dash := none, user_id_us := none, id := none }

/-- Fixture: three in-range exercise details (ids `e1`, `e2`, `e3`, dates
2024-03-01/02/03 under the three start-time spellings); anything else 404s. -/
def d3 : String → DetailResp := fun id =>
  if id = "e1" then
    { status := 200, body := { start_time_dash := .pstr "2024-03-01T10:00:00" } }
  else if id = "e2" then
    { status := 200, body := { start_time_us := .pstr "2024-03-02T10:00:00" } }
  else if id = "e3" then
    { status := 200, body := { startTime := .pstr "2024-03-03T10:00:00" } }
  else { status := 404 }

/-- Fixture: a listing of the three exercises `e1`, `e2`, `e3`. -/
def exs3 : List ExerciseRef :=
  [{ id := .pstr "e1" }, { id := .pstr "e2" }, { id := .pstr "e3" }]

/-- Fixture: a detail response whose only start-time spelling is
`startTime` holding the empty string. -/
def dEmptyStart : String → DetailResp := fun _ =>
  { status := 200, body := { startTime := .pstr "" } }

/-- Abbreviation: the detail body the loop fetches for entry `ex`. -/
def detailBodyOf (details : String → DetailResp) (ex : ExerciseRef) :
    DetailBody :=
  (details (pyStr (exIdOf ex))).body

/-- Abbreviation: the date part (first 10 characters of the stringified
start time) the loop computes for entry `ex`. -/
def datePartOf (details : String → DetailResp) (ex : ExerciseRef) : String :=
  (pyStr (startTimeOf (detailBodyOf details ex))).take 10

/-- Abbreviation: the normalized summary the loop appends for entry `ex`
when it is kept. -/
def summaryOf (details : String → DetailResp) (ex : ExerciseRef) : Workout :=
  mkWorkout (pyStr (exIdOf ex)) (detailBodyOf details ex)
    (startTimeOf (detailBodyOf details ex))

/-- C2 counterexample: `limit` is validated, not clamped — the handler
declaration `Query(50, ge=1, le=200)` rejects `limit=0` with a 422 rather
than treating it as 1, and rejects `limit=201` rather than treating it
as 200. -/
theorem C2_counterexample :
    parseLimitParam (some 0) = .httpError 422 "limit validation failed" ∧
    parseLimitParam (some 0) ≠ .ok 1 ∧
    parseLimitParam (some 201) ≠ .ok 200 := by
  refine ⟨rfl, ?_, ?_⟩ <;> decide

/-- C2 (amended): the effective limit is 50 when the `limit` parameter is
absent and any in-range supplied value is passed through; a value outside
[1, 200] is rejected with a 422 validation error, not clamped. -/
theorem C2_limit_validation :
    parseLimitParam none = .ok 50 ∧
    (∀ v : Int, 1 ≤ v → v ≤ 200 → parseLimitParam (some v) = .ok v) ∧
    (∀ v : Int, v < 1 ∨ 200 < v →
      parseLimitParam (some v) = .httpError 422 "limit validation failed") := by
  refine ⟨rfl, ?_, ?_⟩
  · intro v h1 h2
    simp [parseLimitParam, h1, h2]
  · intro v h
    have : ¬ (1 ≤ v ∧ v ≤ 200) := by omega
    simp [parseLimitParam, this]

/-- C2 witness: `limit=7` passes through; `limit=0` is rejected. -/
theorem C2_limit_validation_witness :
    parseLimitParam (some 7) = .ok 7 ∧
    parseLimitParam (some 0) = .httpError 422 "limit validation failed" :=
  ⟨C2_limit_validation.2.1 7 (by decide) (by decide),
   C2_limit_validation.2.2 0 (Or.inl (by decide))⟩

/-- C4: `_is_token_valid` is false when no access token is present, false
whenever `now ≥ expires_at - 60` (including equality), and true when a
token is present and `now < expires_at - 60`. -/
theorem C4_is_token_valid (now : Int) (st : TokenStore) :
    (st.access_token = none → _is_token_valid now st = false) ∧
    (st.expires_at - 60 ≤ now → _is_token_valid now st = false) ∧
    (st.access_token.isSome = true → now < st.expires_at - 60 →
      _is_token_valid now st = true) := by
  refine ⟨?_, ?_, ?_⟩
  · intro h
    simp [_is_token_valid, h]
  · intro h
    simp [_is_token_valid, not_lt.mpr h]
  · intro h1 h2
    simp [_is_token_valid, h1, h2]

/-- C4 witness: the fixture store is valid at `now = 0`, invalid at the
exact boundary `expires_at - 60 = 940`, and a tokenless store is never
valid. -/
theorem C4_is_token_valid_witness :
    _is_token_valid 0 validStore = true ∧
    _is_token_valid 940 validStore = false ∧
    _is_token_valid 0 expiredStore = false :=
  ⟨(C4_is_token_valid 0 validStore).2.2 rfl (by decide),
   (C4_is_token_valid 940 validStore).2.1 (by decide),
   (C4_is_token_valid 0 expiredStore).1 rfl⟩

/-- C5: on a successful refresh (status < 400), the stored refresh token
is retained unchanged when the response carries no `refresh_token` field,
and replaced when the response supplies a (non-empty) one; the access
token and expiry are overwritten and `connected` is set. -/
theorem C5_refresh_token_retention (now : Int) (configOk : Bool)
    (st : TokenStore) (resp : RefreshResp)
    (hvalid : _is_token_valid now st = false)
    (hrt : optTruthy st.refresh_token = true)
    (hcfg : configOk = true)
    (hok : resp.status < 400) :
    (resp.refresh_token = none →
      _refresh_token_if_needed now configOk st resp =
        (.ok { access_token := resp.access_token,
               refresh_token := st.refresh_token,
               expires_at := now + resp.expires_in,
               connected := true,
               polar_user_id := st.polar_user_id }, [.refreshToken])) ∧
    (∀ s : String, s ≠ "" → resp.refresh_token = some s →
      _refresh_token_if_needed now configOk st resp =
        (.ok { access_token := resp.access_token,
               refresh_token := some s,
               expires_at := now + resp.expires_in,
               connected := true,
               polar_user_id := st.polar_user_id }, [.refreshToken])) := by
  have hle : ¬ resp.status ≥ 400 := not_le.mpr hok
  constructor
  · intro hnone
    have horr : optOr resp.refresh_token st.refresh_token = st.refresh_token := by
      simp [optOr, optTruthy, hnone]
    simp [_refresh_token_if_needed, hvalid, hrt, hcfg, hle, horr]
  · intro s hs hsome
    have horr : optOr resp.refresh_token st.refresh_token = some s := by
      simp [optOr, optTruthy, hsome, hs]
    simp [_refresh_token_if_needed, hvalid, hrt, hcfg, hle, horr]

/-- C5 witness: refreshing the expired fixture store with a response
lacking `refresh_token` keeps `rtok`; with `okRefresh` the stored token
becomes `newrtok`. -/
theorem C5_refresh_token_retention_witness :
    _refresh_token_if_needed 0 true expiredStore
        { status := 200, access_token := some "a", refresh_token := none,
          expires_in := 10 } =
      (.ok { access_token := some "a", refresh_token := some "rtok",
             expires_at := 10, connected := true, polar_user_id := none },
       [.refreshToken]) ∧
    _refresh_token_if_needed 0 true expiredStore okRefresh =
      (.ok { access_token := some "newtok", refresh_token := some "newrtok",
             expires_at := 3600, connected := true, polar_user_id := none },
       [.refreshToken]) :=
  ⟨(C5_refresh_token_retention 0 true expiredStore
      { status := 200, access_token := some "a", refresh_token := none,
        expires_in := 10 } rfl rfl rfl (by decide)).1 rfl,
   (C5_refresh_token_retention 0 true expiredStore okRefresh
      rfl rfl rfl (by decide)).2 "newrtok" (by decide) rfl⟩

/-- C6: a 409 from the upstream registration call raises no error, returns
the previously stored (possibly absent) upstream user id, and leaves the
token record unchanged. -/
theorem C6_register_409 (st : TokenStore) (resp : RegisterResp)
    (h : resp.status = 409) :
    (_register_user_if_needed st resp).1 = .ok (st.polar_user_id, st) := by
  by_cases hid : optTruthy st.polar_user_id = true
  · simp [_register_user_if_needed, hid]
  · simp [_register_user_if_needed, hid, h]

/-- C6 witness: a 409 registration against the empty expired store
returns the absent id and the store untouched. -/
theorem C6_register_409_witness :
    (_register_user_if_needed expiredStore idleRegister).1 =
      .ok (none, expiredStore) :=
  C6_register_409 expiredStore idleRegister rfl

/-- C1 counterexample: with an invalid token and a stored refresh token, a
`/polar/workouts` call missing both `from_date` and `from` still performs
an upstream refresh-token exchange before failing (and with an invalid
token and no refresh token it fails 401, not 422) — the claim's "no
upstream call and 422 regardless of the token state" is false. -/
theorem C1_counterexample :
    (polar_workouts 0 true expiredStore okRefresh idleRegister 200
        (.jobj none) d3 none none "2024-12-31" 50).2.2 =
      [UpstreamCall.refreshToken] ∧
    (polar_workouts 0 true expiredStore okRefresh idleRegister 200
        (.jobj none) d3 none none "2024-12-31" 50).1 =
      .httpError 422 "Missing required query parameter" ∧
    (polar_workouts 0 true { expiredStore with refresh_token := none }
        okRefresh idleRegister 200 (.jobj none) d3 none none
        "2024-12-31" 50).1 =
      .httpError 401 "Polar not connected" :=
  ⟨rfl, rfl, rfl⟩

/-- C1 (amended): when the stored token is valid, a call missing both
`from_date` and `from` fails 422 with no upstream call and the store
unchanged.  When the token is invalid, the refresh step runs first: with
no stored refresh token the request fails 401 (still no upstream call);
with one, and a reachable successful refresh, the refresh-token exchange
is performed before the 422 is raised. -/
theorem C1_missing_from_param (now : Int) (configOk : Bool)
    (st : TokenStore) (rr : RefreshResp) (gr : RegisterResp) (ls : Nat)
    (lb : ListingBody) (details : String → DetailResp) (to_ : String)
    (limit : Nat) :
    (_is_token_valid now st = true →
      polar_workouts now configOk st rr gr ls lb details none none to_ limit =
        (.httpError 422 "Missing required query parameter", st, [])) ∧
    (_is_token_valid now st = false → optTruthy st.refresh_token = false →
      polar_workouts now configOk st rr gr ls lb details none none to_ limit =
        (.httpError 401 "Polar not connected", st, [])) ∧
    (_is_token_valid now st = false → optTruthy st.refresh_token = true →
      configOk = true → rr.status < 400 →
      (polar_workouts now configOk st rr gr ls lb details none none to_
          limit).1 = .httpError 422 "Missing required query parameter" ∧
      (polar_workouts now configOk st rr gr ls lb details none none to_
          limit).2.2 = [UpstreamCall.refreshToken]) := by
  refine ⟨?_, ?_, ?_⟩
  · intro hvalid
    simp [polar_workouts, _refresh_token_if_needed, hvalid, optOr, optTruthy]
  · intro hvalid hrt
    simp [polar_workouts, _refresh_token_if_needed, hvalid, hrt]
  · intro hvalid hrt hcfg hok
    have hle : ¬ rr.status ≥ 400 := not_le.mpr hok
    have hstart : optOr (none : Option String) none = none := rfl
    constructor <;>
      simp [polar_workouts, _refresh_token_if_needed, hvalid, hrt, hcfg,
        hle, hstart]

/-- C1 witness: with the valid fixture store, the missing-parameter call
fails 422 with an empty upstream-call trace. -/
theorem C1_missing_from_param_witness :
    polar_workouts 0 true validStore idleRefresh idleRegister 200
        (.jobj none) d3 none none "2024-12-31" 50 =
      (.httpError 422 "Missing required query parameter", validStore, []) :=
  (C1_missing_from_param 0 true validStore idleRefresh idleRegister 200
    (.jobj none) d3 "2024-12-31" 50).1 rfl

/-- C3 counterexample: a bare JSON list from the exercise-listing endpoint
is not accepted — `listing.get("exercises", [])` raises an
`AttributeError`, so the request faults instead of proceeding to the
detail fetches. -/
theorem C3_counterexample :
    polar_workouts 0 true validStore idleRefresh idleRegister 200
        (.jlist exs3) d3 none (some "2024-01-01") "2024-12-31" 50 =
      (.crash "AttributeError: list object has no attribute get",
       validStore, [.listExercises]) :=
  rfl

/-- C3 (amended): a JSON object is accepted — the list under its
`exercises` key (empty if the key is absent) is processed by the detail
loop — while a bare JSON list causes the request to fault with an
unhandled `AttributeError` before any detail fetch. -/
theorem C3_listing_shape :
    (∀ (exercises : List ExerciseRef) (details : String → DetailResp)
        (to_ : String) (limit : Nat),
      polar_workouts 0 true validStore idleRefresh idleRegister 200
          (.jobj (some exercises)) details none (some "2024-01-01") to_
          limit =
        (.ok { workouts :=
                 (fetchLoop details "2024-01-01" to_ limit exercises []).1,
               fromDate := "2024-01-01", toDate := to_,
               count :=
                 (fetchLoop details "2024-01-01" to_ limit
                   exercises []).1.length },
         validStore,
         .listExercises ::
           (fetchLoop details "2024-01-01" to_ limit exercises []).2)) ∧
    (∀ (items : List ExerciseRef) (details : String → DetailResp)
        (to_ : String) (limit : Nat),
      polar_workouts 0 true validStore idleRefresh idleRegister 200
          (.jlist items) details none (some "2024-01-01") to_ limit =
        (.crash "AttributeError: list object has no attribute get",
         validStore, [.listExercises])) := by
  constructor <;> intro a details to_ limit <;> rfl

/-- Helper: one pass of the detail loop over a single listing entry with a
present id and a successful detail fetch — kept or skipped according to the
start-time filter. -/
theorem fetchLoop_single (details : String → DetailResp)
    (start to_ : String) (ex : ExerciseRef)
    (hid : (exIdOf ex).truthy = true)
    (hok : ¬ (details (pyStr (exIdOf ex))).status ≥ 400) :
    (fetchLoop details start to_ 1 [ex] []).1 =
      if ((startTimeOf (detailBodyOf details ex)).truthy &&
          ! _date_in_range (datePartOf details ex) start to_) = true then []
      else [summaryOf details ex] := by
  cases ht : (startTimeOf (detailBodyOf details ex)).truthy with
  | false =>
    have ht2 := ht
    simp only [detailBodyOf] at ht2
    simp [fetchLoop, hid, hok, ht, ht2, summaryOf, detailBodyOf]
  | true =>
    have ht2 := ht
    simp only [detailBodyOf] at ht2
    cases hd : _date_in_range (datePartOf details ex) start to_ with
    | false =>
      have hd2 := hd
      simp only [datePartOf, detailBodyOf] at hd2
      simp [fetchLoop, hid, hok, ht, ht2, hd, hd2]
    | true =>
      have hd2 := hd
      simp only [datePartOf, detailBodyOf] at hd2
      simp [fetchLoop, hid, hok, ht, ht2, hd, hd2, summaryOf, detailBodyOf]

/-- C9: for an item with a start time, membership in the range is decided
by `_date_in_range` on the first 10 characters of the start time —
lexicographic and inclusive at both boundaries: dates equal to `from` or
`to` are kept, dates outside `[from, to]` are dropped. -/
theorem C9_date_filter (details : String → DetailResp) (start to_ : String)
    (ex : ExerciseRef)
    (hid : (exIdOf ex).truthy = true)
    (hok : (details (pyStr (exIdOf ex))).status < 400)
    (ht : (startTimeOf (detailBodyOf details ex)).truthy = true) :
    ((fetchLoop details start to_ 1 [ex] []).1 = [summaryOf details ex] ↔
      _date_in_range (datePartOf details ex) start to_ = true) ∧
    (_date_in_range (datePartOf details ex) start to_ = true ↔
      (start ≤ datePartOf details ex ∧ datePartOf details ex ≤ to_)) ∧
    (datePartOf details ex = start → datePartOf details ex ≤ to_ →
      (fetchLoop details start to_ 1 [ex] []).1 = [summaryOf details ex]) ∧
    (datePartOf details ex = to_ → start ≤ datePartOf details ex →
      (fetchLoop details start to_ 1 [ex] []).1 = [summaryOf details ex]) ∧
    (¬ (start ≤ datePartOf details ex ∧ datePartOf details ex ≤ to_) →
      (fetchLoop details start to_ 1 [ex] []).1 = []) := by
  have hok2 : ¬ (details (pyStr (exIdOf ex))).status ≥ 400 := not_le.mpr hok
  have key := fetchLoop_single details start to_ ex hid hok2
  rw [ht] at key
  have hiff : (_date_in_range (datePartOf details ex) start to_ = true) ↔
      (start ≤ datePartOf details ex ∧ datePartOf details ex ≤ to_) := by
    simp [_date_in_range, String.le_iff_toList_le]
  cases hdir : _date_in_range (datePartOf details ex) start to_ with
  | false =>
    rw [hdir] at key
    simp only [Bool.not_false, Bool.and_true, if_pos] at key
    have hout : ¬ (start ≤ datePartOf details ex ∧
        datePartOf details ex ≤ to_) := by
      intro hin
      have h2 := hiff.mpr hin
      rw [hdir] at h2
      exact absurd h2 (by decide)
    have hiff2 := hiff
    rw [hdir] at hiff2
    refine ⟨?_, hiff2, ?_, ?_, fun _ => key⟩
    · constructor
      · intro h
        rw [key] at h
        exact absurd h (by simp)
      · intro h
        exact absurd h (by decide)
    · intro h1 h2
      exact absurd ⟨le_of_eq h1.symm, h2⟩ hout
    · intro h1 h2
      exact absurd ⟨h2, le_of_eq h1⟩ hout
  | true =>
    rw [hdir] at key
    simp only [Bool.not_true, Bool.and_false] at key
    simp only [show (false = true) = False by simp, if_false] at key
    have hiff2 := hiff
    rw [hdir] at hiff2
    refine ⟨?_, hiff2, fun _ _ => key, fun _ _ => key, ?_⟩
    · simp [key]
    · intro hnot
      exact absurd (hiff.mp hdir) hnot

/-- C9 witness: with `from = 2024-03-01` (the item's exact date) the
boundary item `e1` is kept. -/
theorem C9_date_filter_witness :
    (fetchLoop d3 "2024-03-01" "2024-12-31" 1 [{ id := .pstr "e1" }] []).1 =
      [summaryOf d3 { id := .pstr "e1" }] :=
  (C9_date_filter d3 "2024-03-01" "2024-12-31" { id := .pstr "e1" }
    rfl (by decide) (by decide)).2.2.1 rfl
    (by rw [String.le_iff_toList_le]; decide)

/-- C10 counterexample: when the only start-time spelling present is
`startTime` holding the empty string, the item is included with its
`startTime` output equal to the empty string — not absent/null as the
claim states. -/
theorem C10_counterexample :
    (polar_workouts 0 true validStore idleRefresh idleRegister 200
        (.jobj (some [{ id := .pstr "w1" }])) dEmptyStart none
        (some "2030-01-01") "2030-12-31" 50).1 =
      .ok { workouts := [{ id := "w1", startTime := .pstr "",
                           type := .pnone, durationSeconds := .pnone,
                           calories := .pnone, distanceMeters := .pnone,
                           avgHr := .pnone, maxHr := .pnone }],
            fromDate := "2030-01-01", toDate := "2030-12-31", count := 1 } ∧
    PyVal.pstr "" ≠ PyVal.pnone :=
  ⟨rfl, by decide⟩

/-- C10 (amended): an item whose computed start time is falsy (all
spellings absent or holding an empty value) is included regardless of the
requested range; its `startTime` output equals that falsy computed value —
null exactly when the falsy value is `None` (in particular when all three
spellings are absent), the empty value itself otherwise. -/
theorem C10_missing_start_time (details : String → DetailResp)
    (start to_ : String) (ex : ExerciseRef)
    (hid : (exIdOf ex).truthy = true)
    (hok : (details (pyStr (exIdOf ex))).status < 400)
    (ht : (startTimeOf (detailBodyOf details ex)).truthy = false) :
    (fetchLoop details start to_ 1 [ex] []).1 = [summaryOf details ex] ∧
    (summaryOf details ex).startTime = startTimeOf (detailBodyOf details ex) ∧
    ((detailBodyOf details ex).start_time_dash = .pnone →
     (detailBodyOf details ex).start_time_us = .pnone →
     (detailBodyOf details ex).startTime = .pnone →
     startTimeOf (detailBodyOf details ex) = .pnone) := by
  have hok2 : ¬ (details (pyStr (exIdOf ex))).status ≥ 400 := not_le.mpr hok
  have key := fetchLoop_single details start to_ ex hid hok2
  rw [ht] at key
  simp only [Bool.false_and] at key
  simp only [show (false = true) = False by simp, if_false] at key
  refine ⟨key, rfl, ?_⟩
  intro h1 h2 h3
  simp [startTimeOf, pyOr, h1, h2, h3, PyVal.truthy]

/-- C10 witness: the empty-start-time fixture item is included even for a
2030 range, and a body with no start-time spellings computes a null start
time. -/
theorem C10_missing_start_time_witness :
    (fetchLoop dEmptyStart "2030-01-01" "2030-12-31" 1
        [{ id := .pstr "w1" }] []).1 =
      [summaryOf dEmptyStart { id := .pstr "w1" }] :=
  (C10_missing_start_time dEmptyStart "2030-01-01" "2030-12-31"
    { id := .pstr "w1" } rfl (by decide) (by decide)).1

/-- C7: an individual detail fetch returning an error status only skips
that item — the loop result is unchanged apart from the traced fetch — and
every successful `polar_workouts` payload reports `count` equal to the
number of items actually present in `workouts`. -/
theorem C7_detail_error_skipped :
    (∀ (details : String → DetailResp) (start to_ : String) (limit : Nat)
        (ex : ExerciseRef) (rest : List ExerciseRef) (acc : List Workout),
      (exIdOf ex).truthy = true →
      (details (pyStr (exIdOf ex))).status ≥ 400 →
      (fetchLoop details start to_ limit (ex :: rest) acc).1 =
          (fetchLoop details start to_ limit rest acc).1 ∧
        (fetchLoop details start to_ limit (ex :: rest) acc).2 =
          .getExercise (pyStr (exIdOf ex)) ::
            (fetchLoop details start to_ limit rest acc).2) ∧
    (∀ (now : Int) (configOk : Bool) (st : TokenStore) (rr : RefreshResp)
        (gr : RegisterResp) (ls : Nat) (lb : ListingBody)
        (details : String → DetailResp) (fd fa : Option String)
        (to_ : String) (limit : Nat) (p : WorkoutsPayload)
        (st2 : TokenStore) (tr : List UpstreamCall),
      polar_workouts now configOk st rr gr ls lb details fd fa to_ limit =
          (.ok p, st2, tr) →
      p.count = p.workouts.length) := by
  constructor
  · intro details start to_ limit ex rest acc hid herr
    constructor <;> simp [fetchLoop, hid, herr]
  · intro now configOk st rr gr ls lb details fd fa to_ limit p st2 tr h
    unfold polar_workouts at h
    repeat' split at h
    all_goals first
    | (simp_all; done)
    | (cases hopt : optOr fa fd with
       | none =>
         rw [hopt] at h
         simp_all
       | some start =>
         rw [hopt] at h
         by_cases hse : start = ""
         · simp_all
         · first
           | (simp_all [hse]; done)
           | (simp_all [hse]
              obtain ⟨hp, h2⟩ := h
              rw [← hp]))

/-- C7 witness: a 404 detail for an extra leading item leaves the loop
result unchanged, and the payload of an empty-listing run has
`count = len(workouts)`. -/
theorem C7_detail_error_skipped_witness :
    (fetchLoop d3 "2024-01-01" "2024-12-31" 50
        ({ id := .pstr "bad" } :: exs3) []).1 =
      (fetchLoop d3 "2024-01-01" "2024-12-31" 50 exs3 []).1 ∧
    ({ workouts := [], fromDate := "2024-01-01", toDate := "2024-12-31",
       count := 0 } : WorkoutsPayload).count =
      ({ workouts := [], fromDate := "2024-01-01", toDate := "2024-12-31",
         count := 0 } : WorkoutsPayload).workouts.length :=
  ⟨(C7_detail_error_skipped.1 d3 "2024-01-01" "2024-12-31" 50
      { id := .pstr "bad" } exs3 [] rfl (by decide)).1,
   C7_detail_error_skipped.2 0 true validStore idleRefresh idleRegister 200
     (.jobj none) d3 none (some "2024-01-01") "2024-12-31" 50
     { workouts := [], fromDate := "2024-01-01", toDate := "2024-12-31",
       count := 0 }
     validStore [.listExercises] rfl⟩

/-- Helper: with fewer than `limit` items accumulated, the detail loop
returns the accumulator extended by the next `limit - acc.length` matching
summaries, in listing order. -/
theorem fetchLoop_fst_eq_take (details : String → DetailResp)
    (start to_ : String) (limit : Nat) :
    ∀ (exs : List ExerciseRef) (acc : List Workout), acc.length < limit →
      (fetchLoop details start to_ limit exs acc).1 =
        acc ++ (specMatchedWorkouts details start to_ exs).take
          (limit - acc.length) := by
  intro exs
  induction exs with
  | nil =>
    intro acc h
    simp [fetchLoop, specMatchedWorkouts]
  | cons ex rest ih =>
    intro acc hacc
    by_cases hid : (exIdOf ex).truthy = true
    · by_cases herr : (details (pyStr (exIdOf ex))).status ≥ 400
      · simp [fetchLoop, specMatchedWorkouts, hid, herr, ih acc hacc]
      · by_cases hskip :
            ((startTimeOf (details (pyStr (exIdOf ex))).body).truthy &&
              ! _date_in_range
                ((pyStr (startTimeOf
                  (details (pyStr (exIdOf ex))).body)).take 10)
                start to_) = true
        · simp [fetchLoop, specMatchedWorkouts, hid, herr, hskip,
            ih acc hacc]
        · have happ : specMatchedWorkouts details start to_ (ex :: rest) =
              mkWorkout (pyStr (exIdOf ex)) (details (pyStr (exIdOf ex))).body
                  (startTimeOf (details (pyStr (exIdOf ex))).body) ::
                specMatchedWorkouts details start to_ rest := by
            simp [specMatchedWorkouts, hid, herr, hskip]
          by_cases hbreak :
              (acc ++ [mkWorkout (pyStr (exIdOf ex))
                (details (pyStr (exIdOf ex))).body
                (startTimeOf (details (pyStr (exIdOf ex))).body)]).length ≥
                limit
          · have hbreak2 : limit ≤ acc.length + 1 := by
              simpa [List.length_append] using hbreak
            have hloop : (fetchLoop details start to_ limit
                (ex :: rest) acc).1 =
                acc ++ [mkWorkout (pyStr (exIdOf ex))
                  (details (pyStr (exIdOf ex))).body
                  (startTimeOf (details (pyStr (exIdOf ex))).body)] := by
              simp [fetchLoop, hid, herr, hskip, hbreak2]
            have hlen : limit - acc.length = 1 := by
              simp [List.length_append] at hbreak
              omega
            rw [hloop, happ, hlen]
            simp
          · have hbreak2 : ¬ limit ≤ acc.length + 1 := by
              simp [List.length_append] at hbreak
              omega
            have hloop : (fetchLoop details start to_ limit
                (ex :: rest) acc).1 =
                (fetchLoop details start to_ limit rest
                  (acc ++ [mkWorkout (pyStr (exIdOf ex))
                    (details (pyStr (exIdOf ex))).body
                    (startTimeOf (details (pyStr (exIdOf ex))).body)])).1 := by
              simp [fetchLoop, hid, herr, hskip, hbreak2]
            have hlt : (acc ++ [mkWorkout (pyStr (exIdOf ex))
                (details (pyStr (exIdOf ex))).body
                (startTimeOf (details (pyStr (exIdOf ex))).body)]).length <
                limit := lt_of_not_ge hbreak
            have hsub : limit - acc.length = (limit - (acc.length + 1)) + 1 := by
              simp [List.length_append] at hlt
              omega
            rw [hloop, ih _ hlt, happ, hsub, List.take_succ_cons]
            simp [List.length_append]
    · simp [fetchLoop, specMatchedWorkouts, hid, ih acc hacc]

/-- C8: a successful `listWorkouts` run returns exactly the first `limit`
summaries, in upstream listing order, of the entries whose detail fetch
succeeds and which pass the date filter — collection stops once `limit`
matches are accumulated, with no global sorting. -/
theorem C8_first_limit_in_order (details : String → DetailResp)
    (start to_ : String) (limit : Nat) (exercises : List ExerciseRef)
    (hs : start ≠ "") (hl : 1 ≤ limit) :
    (polar_workouts 0 true validStore idleRefresh idleRegister 200
        (.jobj (some exercises)) details none (some start) to_ limit).1 =
      .ok { workouts :=
              (specMatchedWorkouts details start to_ exercises).take limit,
            fromDate := start, toDate := to_,
            count :=
              ((specMatchedWorkouts details start to_ exercises).take
                limit).length } := by
  have hloop := fetchLoop_fst_eq_take details start to_ limit exercises []
    (by simpa using hl)
  simp only [List.length_nil, Nat.sub_zero, List.nil_append] at hloop
  have h1 : _refresh_token_if_needed 0 true validStore idleRefresh =
      (.ok validStore, []) := rfl
  have h2 : _register_user_if_needed validStore idleRegister =
      (.ok (some "uid1", validStore), []) := rfl
  have h3 : optOr (some start) none = some start := by
    simp [optOr, optTruthy, hs]
  have h4 : optTruthy validStore.access_token = true := rfl
  simp [polar_workouts, h1, h2, h3, h4, hs, getExercisesField, hloop]

/-- C8 witness: with `limit = 2` and the three in-range fixture items, the
result is exactly the first two summaries, in upstream listing order. -/
theorem C8_first_limit_in_order_witness :
    (polar_workouts 0 true validStore idleRefresh idleRegister 200
        (.jobj (some exs3)) d3 none (some "2024-01-01") "2024-12-31" 2).1 =
      .ok { workouts :=
              (specMatchedWorkouts d3 "2024-01-01" "2024-12-31" exs3).take 2,
            fromDate := "2024-01-01", toDate := "2024-12-31",
            count :=
              ((specMatchedWorkouts d3 "2024-01-01" "2024-12-31" exs3).take
                2).length } ∧
    (specMatchedWorkouts d3 "2024-01-01" "2024-12-31" exs3).take 2 =
      [summaryOf d3 { id := .pstr "e1" }, summaryOf d3 { id := .pstr "e2" }] :=
  ⟨C8_first_limit_in_order d3 "2024-01-01" "2024-12-31" 2 exs3
     (by decide) (by decide),
   by rfl⟩
